import Mathlib

/-!
Verification of the paginated selector (`pkg/kubectl/resource/selector.go`).

The Go `Selector` drives a fetch-page / callback / continue loop (`Visit`)
against a remote collection client, classifies fetch errors, rewrites the
message of bad-request / not-found errors, and exposes a one-shot `Watch`
delegation.  We embed the loop as a fuel-indexed function that also records
the full trace of external fetch calls and callback invocations, so that
ordering and counting properties can be stated directly.
-/

namespace Kubectl

/-- A structured API status payload (the `metav1.Status` carried by a
`*errors.StatusError`): human-readable `message` plus machine fields. -/
structure Status where
  status : String
  message : String
  reason : String
  details : String
  code : Int
  deriving DecidableEq, Repr

/-- Errors returned by the collaborator, as introspected by the Visit loop:
a `*errors.StatusError` (structured status, mutable message), some other
error implementing the status interface (reason introspectable but not of
the structured type), or a plain error with only a message. -/
inductive KubeError where
  | statusError (st : Status)
  | apiStatus (st : Status)
  | plainError (msg : String)
  deriving DecidableEq, Repr

/-- The `Error()` text of an error (used by `%v` formatting): for status
errors this is the status message. -/
def errMessage : KubeError → String
  | .statusError st => st.message
  | .apiStatus st => st.message
  | .plainError m => m

/-- Modelled from the spec: the collaborator errors are introspectable for
a machine-readable reason; a plain error has no reason (the unknown reason
is the empty string).  This models `errors.ReasonForError` of the external
apimachinery dependency, which is not part of this repository's source. -/
def reasonForError : KubeError → String
  | .statusError st => st.reason
  | .apiStatus st => st.reason
  | .plainError _ => ""

/-- Modelled from the spec: classification "resource expired" — the server
reports the requested version/cursor is no longer retrievable
(`errors.IsResourceExpired`). -/
def isResourceExpired (e : KubeError) : Bool :=
  reasonForError e = "Expired"

/-- Modelled from the spec: classification "bad request"
(`errors.IsBadRequest`). -/
def isBadRequest (e : KubeError) : Bool :=
  reasonForError e = "BadRequest"

/-- Modelled from the spec: classification "not found"
(`errors.IsNotFound`). -/
def isNotFound (e : KubeError) : Bool :=
  reasonForError e = "NotFound"

/-- Opaque REST client handle; the loop never inspects it, only threads it
into each page envelope. -/
structure RESTClient where
  id : Nat
  deriving DecidableEq, Repr

/-- Group/version/kind identity of the target collection. -/
structure GroupVersionKind where
  group : String
  version : String
  kind : String
  deriving DecidableEq, Repr

/-- `GroupVersionKind.GroupVersion().String()`: `group/version`, or just
`version` when the group is empty. -/
def GroupVersionKind.groupVersionString (gvk : GroupVersionKind) : String :=
  if gvk.group = "" then gvk.version else gvk.group ++ "/" ++ gvk.version

/-- `meta.RESTMapping`: the REST resource name (used in error messages)
plus the group/version/kind identity.  The metadata accessor capability is
modelled on the page object itself (see `Object`). -/
structure RESTMapping where
  resource : String
  gvk : GroupVersionKind
  deriving DecidableEq, Repr

instance exceptDecEq {ε α : Type} [DecidableEq ε] [DecidableEq α] :
    DecidableEq (Except ε α) := fun a b =>
  match a, b with
  | .ok x, .ok y =>
      if h : x = y then .isTrue (by rw [h]) else .isFalse (by intro hc; cases hc; exact h rfl)
  | .ok _, .error _ => .isFalse (by intro hc; cases hc)
  | .error _, .ok _ => .isFalse (by intro hc; cases hc)
  | .error x, .error y =>
      if h : x = y then .isTrue (by rw [h]) else .isFalse (by intro hc; cases hc; exact h rfl)

/-- A decoded page object.  It is opaque to the loop except for the two
metadata fields the accessor extracts, each of which may fail with an
accessor error. -/
structure Object where
  payload : Nat
  resourceVersionResult : Except String String
  continueResult : Except String String
  deriving DecidableEq, Repr

/-- Modelled from the spec: the metadata accessor returns the extracted
string, or the zero value (empty string) alongside an error; the Visit
loop discards the error component (`resourceVersion, _ := accessor...`). -/
def accessorValue : Except String String → String
  | .ok s => s
  | .error _ => ""

/-- `metav1.ListOptions` as populated by the Visit loop. -/
structure ListOptions where
  labelSelector : String
  includeUninitialized : Bool
  limit : Int
  continueToken : String
  deriving DecidableEq, Repr

/-- One fetch call to the collaborator's `List` entry point: all the
arguments the loop passes. -/
structure ListCall where
  nspace : String
  apiVersion : String
  exportMode : Bool
  options : ListOptions
  deriving DecidableEq, Repr

/-- The `Selector` struct: selection criteria fixed at construction. -/
structure Selector where
  client : RESTClient
  mapping : RESTMapping
  nspace : String
  selector : String
  exportMode : Bool
  includeUninitialized : Bool
  limitChunks : Int
  deriving DecidableEq, Repr

/-- `NewSelector`: plain constructor. -/
def NewSelector (client : RESTClient) (mapping : RESTMapping) (nspace selector : String)
    (exportMode includeUninitialized : Bool) (limitChunks : Int) : Selector :=
  { client := client, mapping := mapping, nspace := nspace, selector := selector,
    exportMode := exportMode, includeUninitialized := includeUninitialized,
    limitChunks := limitChunks }

/-- `ResourceMapping`: pure accessor for the mapping. -/
def Selector.ResourceMapping (r : Selector) : RESTMapping := r.mapping

/-- The `Info` envelope handed to the callback once per successful page. -/
structure Info where
  client : RESTClient
  mapping : RESTMapping
  nspace : String
  object : Object
  resourceVersion : String
  deriving DecidableEq, Repr

/-- The fetch call the loop issues for a given continuation token,
assembled exactly as in the source. -/
def mkListCall (r : Selector) (continueToken : String) : ListCall :=
  { nspace := r.nspace
    apiVersion := r.mapping.gvk.groupVersionString
    exportMode := r.exportMode
    options :=
      { labelSelector := r.selector
        includeUninitialized := r.includeUninitialized
        limit := r.limitChunks
        continueToken := continueToken } }

/-- The envelope the loop builds for a fetched page. -/
def mkInfo (r : Selector) (list : Object) (resourceVersion : String) : Info :=
  { client := r.client, mapping := r.mapping, nspace := r.nspace,
    object := list, resourceVersion := resourceVersion }

/-- The message rewrite applied to bad-request / not-found errors, exactly
the two `fmt.Sprintf` formats of the source. -/
def rewriteMessage (r : Selector) (orig : String) : String :=
  if r.selector = "" then
    "Unable to list \"" ++ r.mapping.resource ++ "\": " ++ orig
  else
    "Unable to find \"" ++ r.mapping.resource ++ "\" that match the selector \""
      ++ r.selector ++ "\": " ++ orig

/-- The whole bad-request / not-found branch: a structured status error
keeps its structure with only the message replaced; any other error is
wrapped in a plain error carrying the rewritten text. -/
def rewriteError (r : Selector) : KubeError → KubeError
  | .statusError st => .statusError { st with message := rewriteMessage r st.message }
  | e => .plainError (rewriteMessage r (errMessage e))

/-- One observable step of the Visit loop: an external fetch call with its
outcome, or a callback invocation with the arguments passed to it. -/
inductive Event where
  | fetched (call : ListCall) (result : Except KubeError Object)
  | calledBack (info : Info) (errArg : Option KubeError)
  deriving DecidableEq, Repr

/-- The callback invocations recorded in a trace, in order. -/
def calledBackEvents (tr : List Event) : List (Info × Option KubeError) :=
  tr.filterMap fun e =>
    match e with
    | .calledBack i a => some (i, a)
    | _ => none

/-- An envelope is well-formed for a selector when it carries the
selector's own client, mapping and namespace, and the resource version
extracted from its own object. -/
def envOk (r : Selector) (i : Info) : Bool :=
  i.client == r.client && i.mapping == r.mapping && i.nspace == r.nspace &&
    i.resourceVersion == accessorValue i.object.resourceVersionResult

/-- Trace invariant: every callback invocation immediately follows the
successful fetch of the very object it envelopes, carries a `none` error
argument, and its envelope is well-formed. -/
def traceOk (r : Selector) : List Event → Bool
  | [] => true
  | .fetched _ (.ok o) :: .calledBack i a :: rest =>
      (i.object == o) && a.isNone && envOk r i && traceOk r rest
  | .fetched _ _ :: rest => traceOk r rest
  | .calledBack _ _ :: _ => false

/-- The `Visit` loop body, embedded with explicit fuel (the source loop
runs until a page's cursor is empty or an error occurs; fuel exhaustion is
`none`).  The collaborator `fetch` is indexed by the number of prior calls
so that a stateful fake can be expressed; the loop threads only the
continuation token, exactly as the source.  Returns the event trace and
the loop's return value (`none` = nil error). -/
def visitLoop (r : Selector) (fetch : Nat → ListCall → Except KubeError Object)
    (fn : Info → Option KubeError → Option KubeError) :
    Nat → Nat → String → Option (List Event × Option KubeError)
  | 0, _, _ => none
  | fuel + 1, callIdx, continueToken =>
    let call := mkListCall r continueToken
    match fetch callIdx call with
    | .error err =>
      if isResourceExpired err then
        some ([.fetched call (.error err)], some err)
      else if isBadRequest err || isNotFound err then
        some ([.fetched call (.error err)], some (rewriteError r err))
      else
        some ([.fetched call (.error err)], some err)
    | .ok list =>
      let resourceVersion := accessorValue list.resourceVersionResult
      let nextContinueToken := accessorValue list.continueResult
      let info := mkInfo r list resourceVersion
      match fn info none with
      | some err =>
        some ([.fetched call (.ok list), .calledBack info none], some err)
      | none =>
        if nextContinueToken = "" then
          some ([.fetched call (.ok list), .calledBack info none], none)
        else
          match visitLoop r fetch fn fuel (callIdx + 1) nextContinueToken with
          | none => none
          | some (evs, res) =>
            some (.fetched call (.ok list) :: .calledBack info none :: evs, res)

/-- `Visit`: the loop entered with an empty continuation token. -/
def Selector.visit (r : Selector) (fetch : Nat → ListCall → Except KubeError Object)
    (fn : Info → Option KubeError → Option KubeError) (fuel : Nat) :
    Option (List Event × Option KubeError) :=
  visitLoop r fetch fn fuel 0 ""

/-- One call to the collaborator's watch entry point: all the arguments
`Watch` passes through. -/
structure WatchCall where
  nspace : String
  resourceVersion : String
  apiVersion : String
  labelSelector : String
  deriving DecidableEq, Repr

/-- `Watch`: a single delegation to the collaborator's watch entry point
(modelled from the spec as `Watch(namespace, resourceVersion, groupVersion,
labelSelector)`); returns the list of calls issued together with exactly
the collaborator's result. -/
def Selector.watch {σ : Type} (r : Selector) (watchFn : WatchCall → Except KubeError σ)
    (resourceVersion : String) : List WatchCall × Except KubeError σ :=
  let call : WatchCall :=
    { nspace := r.nspace, resourceVersion := resourceVersion,
      apiVersion := r.mapping.gvk.groupVersionString, labelSelector := r.selector }
  ([call], watchFn call)

/-- `sub` occurs at the start of `l`. -/
def leadsWith {α : Type} [DecidableEq α] : List α → List α → Bool
  | [], _ => true
  | _ :: _, [] => false
  | a :: as, b :: bs => (a == b) && leadsWith as bs

/-- `sub` occurs contiguously somewhere inside `l`. -/
def containsRun {α : Type} [DecidableEq α] (sub : List α) : List α → Bool
  | [] => leadsWith sub []
  | b :: bs => leadsWith sub (b :: bs) || containsRun sub bs

/-- Concrete client for test scenarios. -/
def sampleClient : RESTClient := ⟨7⟩

/-- Concrete mapping targeting the core/v1 `pods` collection. -/
def sampleMapping : RESTMapping :=
  { resource := "pods", gvk := { group := "", version := "v1", kind := "Pod" } }

/-- Selector with label selector `app=foo`. -/
def sampleSelectorFoo : Selector :=
  NewSelector sampleClient sampleMapping "ns" "app=foo" false false 500

/-- First page of a three-page sequence, continuation cursor `c1`. -/
def objA : Object :=
  { payload := 1, resourceVersionResult := .ok "10", continueResult := .ok "c1" }

/-- Second page, continuation cursor `c2`. -/
def objB : Object :=
  { payload := 2, resourceVersionResult := .ok "11", continueResult := .ok "c2" }

/-- Third page, empty continuation cursor. -/
def objC : Object :=
  { payload := 3, resourceVersionResult := .ok "12", continueResult := .ok "" }

/-- Fake collaborator returning pages A, B, C across successive calls. -/
def fetchABC : Nat → ListCall → Except KubeError Object := fun i _ =>
  match i with
  | 0 => .ok objA
  | 1 => .ok objB
  | _ => .ok objC

/-- Callback that always succeeds. -/
def fnNone : Info → Option KubeError → Option KubeError := fun _ _ => none

/-- The abort error a cancelling callback returns. -/
def abortErr : KubeError := .plainError "stop traversal"

/-- Callback that cancels on its first invocation. -/
def fnAbort : Info → Option KubeError → Option KubeError := fun _ _ => some abortErr

/-- A structured not-found status payload. -/
def notFoundStatus : Status :=
  { status := "Failure", message := "pods not found", reason := "NotFound",
    details := "", code := 404 }

/-- A structured not-found error. -/
def notFoundErr : KubeError := .statusError notFoundStatus

/-- Collaborator that fails every fetch with the not-found error. -/
def fetchNotFound : Nat → ListCall → Except KubeError Object := fun _ _ => .error notFoundErr

/-- A structured resource-expired error. -/
def expiredErr : KubeError :=
  .statusError { status := "Failure", message := "the provided continue token is too old",
                 reason := "Expired", details := "", code := 410 }

/-- Collaborator that fails every fetch with the expired error. -/
def fetchExpired : Nat → ListCall → Except KubeError Object := fun _ _ => .error expiredErr

/-- A plain transport error, classified neither expired nor bad-request nor
not-found. -/
def netErr : KubeError := .plainError "connection refused"

/-- Collaborator that fails every fetch with the transport error. -/
def fetchNet : Nat → ListCall → Except KubeError Object := fun _ _ => .error netErr

/-- A page whose metadata accessor fails on both fields. -/
def objNoMeta : Object :=
  { payload := 9, resourceVersionResult := .error "object has no meta",
    continueResult := .error "object has no meta" }

/-- Collaborator returning the accessor-less page. -/
def fetchNoMeta : Nat → ListCall → Except KubeError Object := fun _ _ => .ok objNoMeta

/-- The expected trace of the three-page traversal. -/
def traceABC : List Event :=
  [.fetched (mkListCall sampleSelectorFoo "") (.ok objA),
   .calledBack (mkInfo sampleSelectorFoo objA (accessorValue objA.resourceVersionResult)) none,
   .fetched (mkListCall sampleSelectorFoo "c1") (.ok objB),
   .calledBack (mkInfo sampleSelectorFoo objB (accessorValue objB.resourceVersionResult)) none,
   .fetched (mkListCall sampleSelectorFoo "c2") (.ok objC),
   .calledBack (mkInfo sampleSelectorFoo objC (accessorValue objC.resourceVersionResult)) none]

/-- The first callback invocation of the three-page traversal. -/
def samplePage : Info × Option KubeError :=
  (mkInfo sampleSelectorFoo objA (accessorValue objA.resourceVersionResult), none)

/-- A run that starts a list also starts any extension of that list. -/
theorem leadsWith_append {α : Type} [DecidableEq α] (sub full t : List α)
    (h : leadsWith sub full = true) : leadsWith sub (full ++ t) = true := by
  induction sub generalizing full with
  | nil => simp [leadsWith]
  | cons a as ih =>
    cases full with
    | nil => simp [leadsWith] at h
    | cons b bs =>
      simp [leadsWith] at h ⊢
      exact ⟨h.1, ih bs h.2⟩

/-- A run at the start of a list occurs inside it. -/
theorem containsRun_of_leadsWith {α : Type} [DecidableEq α] (sub l : List α)
    (h : leadsWith sub l = true) : containsRun sub l = true := by
  cases l with
  | nil => simpa [containsRun] using h
  | cons b bs => simp [containsRun, h]

/-- The message of a rewritten error is always the rewritten original
message, whether or not the error was structured. -/
theorem errMessage_rewriteError (r : Selector) (e : KubeError) :
    errMessage (rewriteError r e) = rewriteMessage r (errMessage e) := by
  cases e <;> rfl

/-- Any trace the loop produces starts with the fetch issued for the
current continuation token, with the collaborator's own result. -/
theorem visitLoop_head
    (r : Selector) (fetch : Nat → ListCall → Except KubeError Object)
    (fn : Info → Option KubeError → Option KubeError)
    (fuel callIdx : Nat) (tok : String)
    (tr : List Event) (res : Option KubeError)
    (h : visitLoop r fetch fn fuel callIdx tok = some (tr, res)) :
    ∃ tail, tr = .fetched (mkListCall r tok) (fetch callIdx (mkListCall r tok)) :: tail := by
  cases fuel with
  | zero => simp [visitLoop] at h
  | succ fuel =>
    rw [visitLoop] at h
    cases hf : fetch callIdx (mkListCall r tok) with
    | error e =>
      rw [hf] at h
      simp only at h
      split at h <;> [skip; split at h] <;>
        (injection h with h1; injection h1 with h2 h3; subst h2; exact ⟨_, rfl⟩)
    | ok list =>
      rw [hf] at h
      simp only at h
      cases hfn : fn (mkInfo r list (accessorValue list.resourceVersionResult)) none with
      | some e =>
        rw [hfn] at h
        injection h with h1; injection h1 with h2 h3
        subst h2; exact ⟨_, rfl⟩
      | none =>
        rw [hfn] at h
        by_cases hnext : accessorValue list.continueResult = ""
        · rw [if_pos hnext] at h
          injection h with h1; injection h1 with h2 h3
          subst h2; exact ⟨_, rfl⟩
        · rw [if_neg hnext] at h
          cases hin : visitLoop r fetch fn fuel (callIdx + 1) (accessorValue list.continueResult) with
          | none => rw [hin] at h; cases h
          | some p =>
            obtain ⟨evs, res2⟩ := p
            rw [hin] at h
            simp only at h
            injection h with h1; injection h1 with h2 h3
            subst h2; exact ⟨_, rfl⟩

/-- C1: for every nil-returning callback and every collaborator whose
three successive List calls return pages A, B, C with continuation cursors
`c1`, `c2`, `""`, Visit invokes the callback exactly three times, in the
order A, B, C, and returns no error; the trace shows exactly one fetch and
one callback per page, with page n's callback before page n+1's fetch. -/
theorem visit_three_pages
    (r : Selector) (fetch : Nat → ListCall → Except KubeError Object)
    (fn : Info → Option KubeError → Option KubeError)
    (A B C : Object) (k : Nat)
    (hfn : ∀ i e, fn i e = none)
    (h0 : ∀ c, fetch 0 c = .ok A) (h1 : ∀ c, fetch 1 c = .ok B) (h2 : ∀ c, fetch 2 c = .ok C)
    (hA : accessorValue A.continueResult = "c1")
    (hB : accessorValue B.continueResult = "c2")
    (hC : accessorValue C.continueResult = "") :
    r.visit fetch fn (k + 3) =
      some ([.fetched (mkListCall r "") (.ok A),
             .calledBack (mkInfo r A (accessorValue A.resourceVersionResult)) none,
             .fetched (mkListCall r "c1") (.ok B),
             .calledBack (mkInfo r B (accessorValue B.resourceVersionResult)) none,
             .fetched (mkListCall r "c2") (.ok C),
             .calledBack (mkInfo r C (accessorValue C.resourceVersionResult)) none], none) := by
  simp [Selector.visit, visitLoop, h0, h1, h2, hfn, hA, hB, hC]

/-- C1 witness: the three-page scenario evaluated on the concrete fake
collaborator. -/
theorem visit_three_pages_witness :
    Selector.visit sampleSelectorFoo fetchABC fnNone 3 = some (traceABC, none) :=
  visit_three_pages sampleSelectorFoo fetchABC fnNone objA objB objC 0
    (fun _ _ => rfl) (fun _ => rfl) (fun _ => rfl) (fun _ => rfl) rfl rfl rfl

/-- C2: if the callback returns a non-nil error for a fetched page, the
loop returns that exact error value immediately; the trace records a
single fetch, so no further page is requested from the collaborator. -/
theorem visit_callback_abort
    (r : Selector) (fetch : Nat → ListCall → Except KubeError Object)
    (fn : Info → Option KubeError → Option KubeError)
    (fuel callIdx : Nat) (tok : String) (list : Object) (e : KubeError)
    (hf : fetch callIdx (mkListCall r tok) = .ok list)
    (hfn : fn (mkInfo r list (accessorValue list.resourceVersionResult)) none = some e) :
    visitLoop r fetch fn (fuel + 1) callIdx tok =
      some ([.fetched (mkListCall r tok) (.ok list),
             .calledBack (mkInfo r list (accessorValue list.resourceVersionResult)) none],
            some e) := by
  simp [visitLoop, hf, hfn]

/-- C2 witness: a cancelling callback on the first page of the three-page
collaborator. -/
theorem visit_callback_abort_witness :
    visitLoop sampleSelectorFoo fetchABC fnAbort 1 0 "" =
      some ([.fetched (mkListCall sampleSelectorFoo "") (.ok objA),
             .calledBack (mkInfo sampleSelectorFoo objA
               (accessorValue objA.resourceVersionResult)) none],
            some abortErr) :=
  visit_callback_abort sampleSelectorFoo fetchABC fnAbort 0 0 "" objA abortErr rfl rfl

/-- C3: a fetch error classified as resource-expired is returned unchanged
(same error value), and the trace carries no callback invocation, so an
expired error on the first page means the callback is never invoked. -/
theorem visit_expired_unchanged
    (r : Selector) (fetch : Nat → ListCall → Except KubeError Object)
    (fn : Info → Option KubeError → Option KubeError)
    (fuel callIdx : Nat) (tok : String) (e : KubeError)
    (hf : fetch callIdx (mkListCall r tok) = .error e)
    (he : isResourceExpired e = true) :
    visitLoop r fetch fn (fuel + 1) callIdx tok =
      some ([.fetched (mkListCall r tok) (.error e)], some e) ∧
    calledBackEvents [Event.fetched (mkListCall r tok) (.error e)] = [] := by
  constructor
  · simp [visitLoop, hf, he]
  · rfl

/-- C3 witness: the expired error scenario on the first page. -/
theorem visit_expired_unchanged_witness :
    (visitLoop sampleSelectorFoo fetchExpired fnNone 1 0 "" =
       some ([.fetched (mkListCall sampleSelectorFoo "") (.error expiredErr)], some expiredErr)) ∧
    calledBackEvents [Event.fetched (mkListCall sampleSelectorFoo "") (.error expiredErr)] = [] :=
  visit_expired_unchanged sampleSelectorFoo fetchExpired fnNone 0 0 "" expiredErr rfl (by decide)

/-- C4 counterexample: with selector `app=foo` and resource `pods`, the
message the loop actually produces for a not-found error starts with a
capital `Unable`, so it does not contain the claimed lowercase substring
`unable to find "pods" that match the selector "app=foo"`. -/
theorem visit_lowercase_substring_cex :
    Selector.visit sampleSelectorFoo fetchNotFound fnNone 1 =
      some ([Event.fetched (mkListCall sampleSelectorFoo "") (.error notFoundErr)],
            some (KubeError.statusError
              { status := "Failure",
                message := "Unable to find \"pods\" that match the selector \"app=foo\": pods not found",
                reason := "NotFound", details := "", code := 404 })) ∧
    containsRun ("unable to find \"pods\" that match the selector \"app=foo\"").data
      ("Unable to find \"pods\" that match the selector \"app=foo\": pods not found").data
      = false := by
  exact ⟨by decide, by decide⟩

/-- C4 (amended): a bad-request or not-found fetch error on resource
`pods` is returned rewritten; with selector `app=foo` the message contains
the substring `Unable to find "pods" that match the selector "app=foo"`
(capital U, as the code writes it), with an empty selector it contains
`Unable to list "pods"`, and in both cases the original message text is
preserved as a suffix. -/
theorem visit_message_rewrite
    (r : Selector) (fetch : Nat → ListCall → Except KubeError Object)
    (fn : Info → Option KubeError → Option KubeError)
    (fuel callIdx : Nat) (tok : String) (e : KubeError)
    (hf : fetch callIdx (mkListCall r tok) = .error e)
    (hexp : isResourceExpired e = false)
    (hcls : (isBadRequest e || isNotFound e) = true)
    (hres : r.mapping.resource = "pods") :
    visitLoop r fetch fn (fuel + 1) callIdx tok =
      some ([.fetched (mkListCall r tok) (.error e)], some (rewriteError r e)) ∧
    (r.selector = "app=foo" →
      errMessage (rewriteError r e) =
        "Unable to find \"pods\" that match the selector \"app=foo\": " ++ errMessage e ∧
      containsRun ("Unable to find \"pods\" that match the selector \"app=foo\"").data
        (errMessage (rewriteError r e)).data = true) ∧
    (r.selector = "" →
      errMessage (rewriteError r e) = "Unable to list \"pods\": " ++ errMessage e ∧
      containsRun ("Unable to list \"pods\"").data
        (errMessage (rewriteError r e)).data = true) := by
  refine ⟨?_, ?_, ?_⟩
  · simp [visitLoop, hf, hexp, hcls]
  · intro hsel
    have hmsg : errMessage (rewriteError r e) =
        "Unable to find \"pods\" that match the selector \"app=foo\": " ++ errMessage e := by
      rw [errMessage_rewriteError, rewriteMessage, hres, hsel]
      rfl
    refine ⟨hmsg, ?_⟩
    rw [hmsg]
    show containsRun _ (("Unable to find \"pods\" that match the selector \"app=foo\": ").data
      ++ (errMessage e).data) = true
    exact containsRun_of_leadsWith _ _ (leadsWith_append _ _ _ (by decide))
  · intro hsel
    have hmsg : errMessage (rewriteError r e) = "Unable to list \"pods\": " ++ errMessage e := by
      rw [errMessage_rewriteError, rewriteMessage, hres, hsel]
      rfl
    refine ⟨hmsg, ?_⟩
    rw [hmsg]
    show containsRun _ (("Unable to list \"pods\": ").data ++ (errMessage e).data) = true
    exact containsRun_of_leadsWith _ _ (leadsWith_append _ _ _ (by decide))

/-- C4 witness: the concrete not-found error under selector `app=foo`. -/
theorem visit_message_rewrite_witness :
    visitLoop sampleSelectorFoo fetchNotFound fnNone 1 0 "" =
      some ([.fetched (mkListCall sampleSelectorFoo "") (.error notFoundErr)],
            some (rewriteError sampleSelectorFoo notFoundErr)) ∧
    errMessage (rewriteError sampleSelectorFoo notFoundErr) =
      "Unable to find \"pods\" that match the selector \"app=foo\": " ++ errMessage notFoundErr :=
  ⟨(visit_message_rewrite sampleSelectorFoo fetchNotFound fnNone 0 0 "" notFoundErr
      rfl (by decide) (by decide) rfl).1,
   ((visit_message_rewrite sampleSelectorFoo fetchNotFound fnNone 0 0 "" notFoundErr
      rfl (by decide) (by decide) rfl).2.1 rfl).1⟩

/-- C5: for a structured bad-request / not-found error, the loop returns
the same structured error with only the message field replaced: status,
reason, details and code are all unchanged. -/
theorem visit_status_frame
    (r : Selector) (fetch : Nat → ListCall → Except KubeError Object)
    (fn : Info → Option KubeError → Option KubeError)
    (fuel callIdx : Nat) (tok : String) (st : Status)
    (hf : fetch callIdx (mkListCall r tok) = .error (.statusError st))
    (hexp : isResourceExpired (.statusError st) = false)
    (hcls : (isBadRequest (.statusError st) || isNotFound (.statusError st)) = true) :
    visitLoop r fetch fn (fuel + 1) callIdx tok =
      some ([.fetched (mkListCall r tok) (.error (.statusError st))],
            some (.statusError { st with message := rewriteMessage r st.message })) ∧
    ({ st with message := rewriteMessage r st.message } : Status).status = st.status ∧
    ({ st with message := rewriteMessage r st.message } : Status).reason = st.reason ∧
    ({ st with message := rewriteMessage r st.message } : Status).details = st.details ∧
    ({ st with message := rewriteMessage r st.message } : Status).code = st.code := by
  refine ⟨?_, rfl, rfl, rfl, rfl⟩
  simp [visitLoop, hf, hexp, hcls, rewriteError]

/-- C5 witness: the concrete structured not-found status. -/
theorem visit_status_frame_witness :
    visitLoop sampleSelectorFoo fetchNotFound fnNone 1 0 "" =
      some ([.fetched (mkListCall sampleSelectorFoo "") (.error (.statusError notFoundStatus))],
            some (.statusError { notFoundStatus with
              message := rewriteMessage sampleSelectorFoo notFoundStatus.message })) ∧
    ({ notFoundStatus with
        message := rewriteMessage sampleSelectorFoo notFoundStatus.message } : Status).status
      = notFoundStatus.status ∧
    ({ notFoundStatus with
        message := rewriteMessage sampleSelectorFoo notFoundStatus.message } : Status).reason
      = notFoundStatus.reason ∧
    ({ notFoundStatus with
        message := rewriteMessage sampleSelectorFoo notFoundStatus.message } : Status).details
      = notFoundStatus.details ∧
    ({ notFoundStatus with
        message := rewriteMessage sampleSelectorFoo notFoundStatus.message } : Status).code
      = notFoundStatus.code :=
  visit_status_frame sampleSelectorFoo fetchNotFound fnNone 0 0 "" notFoundStatus
    rfl (by decide) (by decide)

/-- C6: a fetch error that is neither expired nor bad-request nor
not-found is returned completely unchanged, after a single fetch and with
no callback invocation: nothing is rewritten, retried or swallowed. -/
theorem visit_other_error_unchanged
    (r : Selector) (fetch : Nat → ListCall → Except KubeError Object)
    (fn : Info → Option KubeError → Option KubeError)
    (fuel callIdx : Nat) (tok : String) (e : KubeError)
    (hf : fetch callIdx (mkListCall r tok) = .error e)
    (h1 : isResourceExpired e = false)
    (h2 : isBadRequest e = false)
    (h3 : isNotFound e = false) :
    visitLoop r fetch fn (fuel + 1) callIdx tok =
      some ([.fetched (mkListCall r tok) (.error e)], some e) := by
  simp [visitLoop, hf, h1, h2, h3]

/-- C6 witness: a plain transport error on the first page. -/
theorem visit_other_error_unchanged_witness :
    visitLoop sampleSelectorFoo fetchNet fnNone 1 0 "" =
      some ([.fetched (mkListCall sampleSelectorFoo "") (.error netErr)], some netErr) :=
  visit_other_error_unchanged sampleSelectorFoo fetchNet fnNone 0 0 "" netErr
    rfl (by decide) (by decide) (by decide)

/-- C7: Watch performs exactly one call to the collaborator's watch entry
point, passing the given resource version together with the selector's
namespace, group/version string and label selector, and returns exactly
the collaborator's result. -/
theorem watch_delegates (σ : Type) (r : Selector)
    (watchFn : WatchCall → Except KubeError σ) (v : String) :
    Selector.watch r watchFn v =
      ([{ nspace := r.nspace, resourceVersion := v,
          apiVersion := r.mapping.gvk.groupVersionString, labelSelector := r.selector }],
       watchFn { nspace := r.nspace, resourceVersion := v,
                 apiVersion := r.mapping.gvk.groupVersionString, labelSelector := r.selector }) :=
  rfl

/-- C8: (a) the first fetch of a traversal uses an empty continuation
cursor; (b) a non-empty cursor extracted from a page is forwarded verbatim
as the next fetch call's Continue option; (c) a page with an empty cursor
ends the traversal with a nil return after exactly one callback. -/
theorem visit_cursor_protocol :
    (∀ (r : Selector) (fetch : Nat → ListCall → Except KubeError Object)
       (fn : Info → Option KubeError → Option KubeError) (fuel : Nat)
       (tr : List Event) (res : Option KubeError),
       Selector.visit r fetch fn fuel = some (tr, res) →
       (mkListCall r "").options.continueToken = "" ∧
       ∃ tail, tr = Event.fetched (mkListCall r "") (fetch 0 (mkListCall r "")) :: tail) ∧
    (∀ (r : Selector) (fetch : Nat → ListCall → Except KubeError Object)
       (fn : Info → Option KubeError → Option KubeError)
       (fuel callIdx : Nat) (tok : String) (list : Object)
       (tr : List Event) (res : Option KubeError),
       fetch callIdx (mkListCall r tok) = .ok list →
       fn (mkInfo r list (accessorValue list.resourceVersionResult)) none = none →
       accessorValue list.continueResult ≠ "" →
       visitLoop r fetch fn (fuel + 1) callIdx tok = some (tr, res) →
       ∃ tail, tr = Event.fetched (mkListCall r tok) (.ok list)
            :: Event.calledBack (mkInfo r list (accessorValue list.resourceVersionResult)) none
            :: Event.fetched (mkListCall r (accessorValue list.continueResult))
                 (fetch (callIdx + 1) (mkListCall r (accessorValue list.continueResult)))
            :: tail) ∧
    (∀ (r : Selector) (fetch : Nat → ListCall → Except KubeError Object)
       (fn : Info → Option KubeError → Option KubeError)
       (fuel callIdx : Nat) (tok : String) (list : Object),
       fetch callIdx (mkListCall r tok) = .ok list →
       fn (mkInfo r list (accessorValue list.resourceVersionResult)) none = none →
       accessorValue list.continueResult = "" →
       visitLoop r fetch fn (fuel + 1) callIdx tok =
         some ([Event.fetched (mkListCall r tok) (.ok list),
                Event.calledBack (mkInfo r list (accessorValue list.resourceVersionResult)) none],
               none)) := by
  refine ⟨?_, ?_, ?_⟩
  · intro r fetch fn fuel tr res h
    exact ⟨rfl, visitLoop_head r fetch fn fuel 0 "" tr res h⟩
  · intro r fetch fn fuel callIdx tok list tr res hf hfn hnext h
    rw [visitLoop] at h
    rw [hf] at h
    simp only at h
    rw [hfn, if_neg hnext] at h
    cases hin : visitLoop r fetch fn fuel (callIdx + 1) (accessorValue list.continueResult) with
    | none => rw [hin] at h; cases h
    | some p =>
      obtain ⟨evs, res2⟩ := p
      rw [hin] at h
      simp only at h
      injection h with h1
      injection h1 with h2 h3
      subst h2
      obtain ⟨tail2, htail⟩ :=
        visitLoop_head r fetch fn fuel (callIdx + 1) (accessorValue list.continueResult) evs res2 hin
      subst htail
      exact ⟨tail2, rfl⟩
  · intro r fetch fn fuel callIdx tok list hf hfn hnext
    simp [visitLoop, hf, hfn, hnext]

/-- C8 witness: the three parts evaluated on the concrete three-page
scenario (full traversal, forwarding of `c1`, termination at `c2`). -/
theorem visit_cursor_protocol_witness :
    ((mkListCall sampleSelectorFoo "").options.continueToken = "" ∧
     ∃ tail, traceABC = Event.fetched (mkListCall sampleSelectorFoo "")
         (fetchABC 0 (mkListCall sampleSelectorFoo "")) :: tail) ∧
    (∃ tail, traceABC = Event.fetched (mkListCall sampleSelectorFoo "") (.ok objA)
         :: Event.calledBack (mkInfo sampleSelectorFoo objA
              (accessorValue objA.resourceVersionResult)) none
         :: Event.fetched (mkListCall sampleSelectorFoo (accessorValue objA.continueResult))
              (fetchABC 1 (mkListCall sampleSelectorFoo (accessorValue objA.continueResult)))
         :: tail) ∧
    (visitLoop sampleSelectorFoo fetchABC fnNone 1 2 "c2" =
       some ([Event.fetched (mkListCall sampleSelectorFoo "c2") (.ok objC),
              Event.calledBack (mkInfo sampleSelectorFoo objC
                (accessorValue objC.resourceVersionResult)) none],
             none)) :=
  ⟨visit_cursor_protocol.1 sampleSelectorFoo fetchABC fnNone 3 traceABC none rfl,
   visit_cursor_protocol.2.1 sampleSelectorFoo fetchABC fnNone 2 0 "" objA traceABC none
     rfl rfl (by decide) rfl,
   visit_cursor_protocol.2.2 sampleSelectorFoo fetchABC fnNone 0 2 "c2" objC rfl rfl rfl⟩

/-- C9: a page whose metadata accessor fails on both the resource version
and the continuation cursor is not a failure: the callback still runs with
an empty resource version, the loop does not return the accessor's error,
and the empty cursor value ends the traversal successfully. -/
theorem visit_accessor_tolerated
    (r : Selector) (fetch : Nat → ListCall → Except KubeError Object)
    (fn : Info → Option KubeError → Option KubeError)
    (fuel callIdx : Nat) (tok : String) (list : Object) (m1 m2 : String)
    (hf : fetch callIdx (mkListCall r tok) = .ok list)
    (hrv : list.resourceVersionResult = .error m1)
    (hct : list.continueResult = .error m2)
    (hfn : fn (mkInfo r list "") none = none) :
    visitLoop r fetch fn (fuel + 1) callIdx tok =
      some ([.fetched (mkListCall r tok) (.ok list),
             .calledBack (mkInfo r list "") none], none) := by
  simp [visitLoop, hf, hrv, hct, accessorValue, hfn]

/-- C9 witness: the accessor-less page on the first fetch. -/
theorem visit_accessor_tolerated_witness :
    visitLoop sampleSelectorFoo fetchNoMeta fnNone 1 0 "" =
      some ([.fetched (mkListCall sampleSelectorFoo "") (.ok objNoMeta),
             .calledBack (mkInfo sampleSelectorFoo objNoMeta "") none], none) :=
  visit_accessor_tolerated sampleSelectorFoo fetchNoMeta fnNone 0 0 "" objNoMeta
    "object has no meta" "object has no meta" rfl rfl rfl rfl

/-- C10: in every trace the loop produces, a callback invocation occurs
only immediately after the successful fetch of the very object it
envelopes, the error argument passed to the callback is always nil, and
every envelope carries the selector's own client, mapping and namespace
together with the resource version extracted from its object. -/
theorem visit_callback_invariants
    (r : Selector) (fetch : Nat → ListCall → Except KubeError Object)
    (fn : Info → Option KubeError → Option KubeError)
    (fuel callIdx : Nat) (tok : String) (tr : List Event) (res : Option KubeError)
    (h : visitLoop r fetch fn fuel callIdx tok = some (tr, res)) :
    traceOk r tr = true ∧
    ∀ p ∈ calledBackEvents tr, p.2 = none ∧ p.1.client = r.client ∧ p.1.mapping = r.mapping ∧
      p.1.nspace = r.nspace ∧
      p.1.resourceVersion = accessorValue p.1.object.resourceVersionResult := by
  induction fuel generalizing callIdx tok tr res with
  | zero => simp [visitLoop] at h
  | succ fuel ih =>
    rw [visitLoop] at h
    cases hf : fetch callIdx (mkListCall r tok) with
    | error e =>
      rw [hf] at h
      simp only at h
      split at h <;> [skip; split at h] <;>
        (injection h with h1; injection h1 with h2 h3; subst h2;
         exact ⟨by simp [traceOk], by simp [calledBackEvents]⟩)
    | ok list =>
      rw [hf] at h
      simp only at h
      cases hfn : fn (mkInfo r list (accessorValue list.resourceVersionResult)) none with
      | some e =>
        rw [hfn] at h
        injection h with h1; injection h1 with h2 h3; subst h2
        refine ⟨by simp [traceOk, envOk, mkInfo], ?_⟩
        simp [calledBackEvents, mkInfo]
      | none =>
        rw [hfn] at h
        by_cases hnext : accessorValue list.continueResult = ""
        · rw [if_pos hnext] at h
          injection h with h1; injection h1 with h2 h3; subst h2
          refine ⟨by simp [traceOk, envOk, mkInfo], ?_⟩
          simp [calledBackEvents, mkInfo]
        · rw [if_neg hnext] at h
          cases hin : visitLoop r fetch fn fuel (callIdx + 1) (accessorValue list.continueResult) with
          | none => rw [hin] at h; cases h
          | some p =>
            obtain ⟨evs, res2⟩ := p
            rw [hin] at h
            simp only at h
            injection h with h1; injection h1 with h2 h3; subst h2
            obtain ⟨ihok, ihcb⟩ := ih (callIdx + 1) (accessorValue list.continueResult) evs res2 hin
            refine ⟨by simp [traceOk, envOk, mkInfo, ihok], ?_⟩
            intro p hp
            simp [calledBackEvents, mkInfo] at hp
            rcases hp with hp | hp
            · subst hp; exact ⟨rfl, rfl, rfl, rfl, rfl⟩
            · exact ihcb p (by simpa [calledBackEvents] using hp)

/-- C10 witness: the invariant evaluated on the three-page trace, and its
consequences for the first recorded callback invocation. -/
theorem visit_callback_invariants_witness :
    traceOk sampleSelectorFoo traceABC = true ∧
    (samplePage.2 = none ∧ samplePage.1.client = sampleSelectorFoo.client ∧
     samplePage.1.mapping = sampleSelectorFoo.mapping ∧
     samplePage.1.nspace = sampleSelectorFoo.nspace ∧
     samplePage.1.resourceVersion = accessorValue samplePage.1.object.resourceVersionResult) :=
  ⟨(visit_callback_invariants sampleSelectorFoo fetchABC fnNone 3 0 "" traceABC none rfl).1,
   (visit_callback_invariants sampleSelectorFoo fetchABC fnNone 3 0 "" traceABC none rfl).2
     samplePage (by decide)⟩

end Kubectl
